import Mathlib

/-!
# Verification of `tank/pipelineconfig.py`

A shallow embedding of the pipeline-configuration resolution module:
the storage-roots loader, the back-mapping store, the data-root accessor
and the two resolver factories `from_entity` and `from_path`.

External collaborators (the filesystem, the YAML parser, the tracking
service, the process environment) are passed in as explicit parameters:
a filesystem is an existence oracle `String → Bool` plus a `dirname`
and `abspath` function, YAML file contents arrive already parsed, and
the tracking-service responses are given as values.  Every function
returns `Except Err α`; the constructors of `Err` name the distinct
raise sites of the Python source (using the spec's error taxonomy).
-/

namespace PipelineConfig

/-- Typed failures.  Each constructor corresponds to one distinct failure
site in `pipelineconfig.py`: the `TankError` raise sites are named with the
spec's error taxonomy; `keyErrorPlatform` is the Python `KeyError` raised
by `platform_lookup[sys.platform]` on an unsupported platform, and
`uncaughtTypeError` is an uncaught Python `TypeError` (e.g.
`os.path.exists(None)`, `", ".join` over a `None`, or constructing
`PipelineConfiguration(None)`).  `outOfFuel` is an artifact of modelling
the unbounded ancestor-walk loop with explicit fuel. -/
inductive Err where
  | EntityNotFound
  | EntityNotLinked
  | NoConfigurationsForProject
  | NoPrimaryConfiguration
  | PlatformPathMissing
  | PathNotFound
  | UnregisteredLocation
  | ConfigurationNotInProject
  | NotInProject
  | CorruptConfig
  | ConfigurationMismatch
  | NoAccessibleConfiguration
  | AmbiguousConfiguration
  | MissingPrimaryStorage
  | WriteFailure
  | UnsupportedPlatform
  | keyErrorPlatform
  | uncaughtTypeError
  | outOfFuel
  deriving DecidableEq, Repr

/-! ## Python string primitives

The Python `str` operations used by the source, implemented over the
character list of a `String` so that all proofs and witnesses reduce
structurally. -/

/-- Python `s.endswith(suffix)`. -/
def pyEndsWith (s suffix : String) : Bool :=
  suffix.data.isSuffixOf s.data

/-- Python `s.startswith(t)`. -/
def pyStartsWith (s t : String) : Bool :=
  t.data.isPrefixOf s.data

/-- Python `s[:-1]`: drop the last character. -/
def pyDropLast (s : String) : String :=
  String.mk s.data.dropLast

/-- Python `s.replace(old, new)` where `old` and `new` are single
characters (the only form the source uses). -/
def pyReplaceChar (old new : Char) (s : String) : String :=
  String.mk (s.data.map (fun c => if c = old then new else c))

/-! ## Constants

The `constants` module of the repository is not under `src/`; the values
below are modelled from the spec. -/

/-- Modelled from the spec: `constants.PRIMARY_STORAGE_NAME`, the reserved
primary storage name ("Exactly one entry must be named the primary
storage"; the spec's scenario uses the key `primary`). -/
def PRIMARY_STORAGE_NAME : String := "primary"

/-- Modelled from the spec: `constants.PRIMARY_PIPELINE_CONFIG_NAME`, the
reserved name of the primary pipeline configuration entity.  All theorems
below use it symbolically; its concrete value decides nothing. -/
def PRIMARY_PIPELINE_CONFIG_NAME : String := "Primary"

/-- Modelled from the spec: `constants.CONFIG_BACK_MAPPING_FILE`, the
file name of the studio-wide back-mapping file.  Used symbolically. -/
def CONFIG_BACK_MAPPING_FILE : String := "tank_configs.yml"

/-! ## Back-mapping store (`StorageConfigurationMapping`) -/

/-- One row of the back-mapping file: the dictionary
`{"darwin": mac_path, "win32": win_path, "linux2": linux_path}`
written by `add_pipeline_configuration`.  A `none` field is a YAML null
(or equivalently an absent key; both read back as `None` via `.get`). -/
structure BackMappingRow where
  darwin : Option String
  win32 : Option String
  linux2 : Option String
  deriving DecidableEq, Repr

/-- Python `x.get(sys.platform)` on a back-mapping row: `dict.get`
returns `None` for an unknown platform key. -/
def rowGet (platform : String) (r : BackMappingRow) : Option String :=
  if platform = "darwin" then r.darwin
  else if platform = "win32" then r.win32
  else if platform = "linux2" then r.linux2
  else none

/-- The pure core of `StorageConfigurationMapping.add_pipeline_configuration`
(lines 354-374): build `new_item` from the three paths and append it to the
parsed sequence only when no structurally identical row is present
(`if new_item not in data: data.append(new_item)`).  A missing file reads
as the empty sequence. -/
def add_pipeline_configuration (data : List BackMappingRow)
    (mac_path win_path linux_path : Option String) : List BackMappingRow :=
  let new_item : BackMappingRow :=
    { darwin := mac_path, win32 := win_path, linux2 := linux_path }
  if new_item ∈ data then data else data ++ [new_item]

/-! ## Path joining (`os.path.join`, Python 2 stdlib)

`os.path.join` dispatches on the running interpreter's platform
(`sys.platform`): `posixpath.join` on `linux2`/`darwin`,
`ntpath.join` on `win32`.  Both are modelled from the Python 2.7
standard library for the two-argument form the source uses. -/

/-- `posixpath.join(a, b)`: if `b` is absolute it wins; otherwise append
with a `/` separator unless `a` is empty or already ends with `/`. -/
def posixJoin (a b : String) : String :=
  if pyStartsWith b "/" then b
  else if a = "" ∨ pyEndsWith a "/" then a ++ b
  else a ++ "/" ++ b

/-- A character that `ntpath` treats as a separator. -/
def isNtSep (c : Char) : Bool := c = '\\' ∨ c = '/'

/-- `ntpath.splitdrive(p)` (Python 2.7): split off a leading
two-character drive specifier `X:` when the second character is `:`. -/
def ntSplitdrive (p : String) : String × String :=
  match p.data with
  | c₀ :: ':' :: rest => (String.mk [c₀, ':'], String.mk rest)
  | _ => ("", p)

/-- `ntpath.isabs(s)` (Python 2.7): absolute iff, after removing the
drive, the remainder starts with a separator. -/
def ntIsabs (s : String) : Bool :=
  match (ntSplitdrive s).2.data with
  | c :: _ => isNtSep c
  | [] => false

/-- First character of a string, `' '` when empty (only consulted when
the string is known non-empty, mirroring Python's guarded indexing). -/
def headChar (s : String) : Char := s.data.headD ' '

/-- Last character of a string, `' '` when empty (only consulted when
the string is known non-empty). -/
def lastChar (s : String) : Char := s.data.getLastD ' '

/-- `ntpath.join(a, b)` (Python 2.7 `ntpath.join`, two arguments): either
`b` wins (empty `a`, or absolute `b` subject to the drive-letter case
analysis), or `b` is appended to `a` inserting `\` as needed. -/
def ntJoin (a b : String) : String :=
  let b_wins : Bool :=
    if a = "" then true
    else if ntIsabs b then
      if !(headChar (String.mk a.data.tail) = ':' ∧ a.data.length ≥ 2)
          ∨ (headChar (String.mk b.data.tail) = ':' ∧ b.data.length ≥ 2) then
        true
      else if a.data.length > 3 ∨ (a.data.length = 3 ∧ ¬ isNtSep (lastChar a)) then
        true
      else false
    else false
  if b_wins then b
  else if isNtSep (lastChar a) then
    if b ≠ "" ∧ isNtSep (headChar b) then a ++ String.mk b.data.tail
    else a ++ b
  else if lastChar a = ':' then a ++ b
  else if b ≠ "" then
    if isNtSep (headChar b) then a ++ b else a ++ "\\" ++ b
  else a ++ "\\"

/-- `os.path.join(a, b)` as executed on the given `sys.platform`. -/
def osJoin (platform : String) (a b : String) : String :=
  if platform = "win32" then ntJoin a b else posixJoin a b

/-- `os.path.sep` of the running interpreter. -/
def osSepChar (platform : String) : Char :=
  if platform = "win32" then '\\' else '/'

/-- `os.path.sep` as a one-character string. -/
def osSepStr (platform : String) : String :=
  if platform = "win32" then "\\" else "/"

/-- The dictionary access `platform_lookup[sys.platform]` where
`platform_lookup = {"linux2": "linux_path", "win32": "windows_path",
"darwin": "mac_path"}`; a `[]` access on a missing key raises `KeyError`. -/
def platform_lookup_key (platform : String) : Except Err String :=
  if platform = "linux2" then .ok "linux_path"
  else if platform = "win32" then .ok "windows_path"
  else if platform = "darwin" then .ok "mac_path"
  else .error .keyErrorPlatform

/-! ## Roots store (`PipelineConfiguration.__load_roots_meatadata`) -/

/-- One value of the parsed `roots.yml` mapping: a storage entry
`{mac_path, linux_path, windows_path}`, each possibly null. -/
structure StorageRootEntry where
  mac_path : Option String
  linux_path : Option String
  windows_path : Option String
  deriving DecidableEq, Repr

/-- The `self._roots[r][key]` access for a key produced by
`platform_lookup_key`. -/
def storageField (key : String) (e : StorageRootEntry) : Option String :=
  if key = "linux_path" then e.linux_path
  else if key = "windows_path" then e.windows_path
  else e.mac_path

/-- Python `p and p.endswith(sep)` guarded single strip
`p = p[:-1]`: removes exactly one trailing `sep` when the path is
non-null, non-empty and ends with `sep`. -/
def stripOneTrailing (sep : String) (s : String) : String :=
  if pyEndsWith s sep then pyDropLast s else s

/-- The per-entry normalization loop body of `__load_roots_meatadata`
(lines 135-141): strip one trailing `/` from `mac_path` and
`linux_path`, one trailing `\` from `windows_path`. -/
def normalizeRootsEntry (e : StorageRootEntry) : StorageRootEntry :=
  { mac_path := e.mac_path.map (stripOneTrailing "/")
  , linux_path := e.linux_path.map (stripOneTrailing "/")
  , windows_path := e.windows_path.map (stripOneTrailing "\\") }

/-- `PipelineConfiguration.__load_roots_meatadata` (lines 112-143) after
YAML parsing (a parse failure raises `CorruptConfig` before this logic
runs): require the primary storage key, then normalize every entry.
The parsed mapping is represented as an association list. -/
def load_roots_metadata (data : List (String × StorageRootEntry)) :
    Except Err (List (String × StorageRootEntry)) :=
  if PRIMARY_STORAGE_NAME ∈ data.map Prod.fst then
    .ok (data.map (fun p => (p.1, normalizeRootsEntry p.2)))
  else .error .MissingPrimaryStorage

/-! ## Data roots (`PipelineConfiguration.get_data_roots`) -/

/-- The loop body of `get_data_roots` (lines 182-192) for one storage
entry: look up the current-OS field (the `platform_lookup[sys.platform]`
access can raise `KeyError`), keep `None` as `None`, otherwise convert
all slashes to `os.path.sep` and join with the project name. -/
def data_root_entry (platform project_name : String) (e : StorageRootEntry) :
    Except Err (Option String) :=
  match platform_lookup_key platform with
  | .error err => .error err
  | .ok key =>
    match storageField key e with
    | none => .ok none
    | some current_os_root =>
      .ok (some (osJoin platform
        (pyReplaceChar '/' (osSepChar platform)
          (pyReplaceChar '\\' (osSepChar platform) current_os_root))
        project_name))

/-- `PipelineConfiguration.get_data_roots` (lines 168-194): walk the
loaded roots metadata in order, mapping every storage to its current-OS
data root (the first entry hitting a `KeyError` aborts the loop). -/
def get_data_roots (platform : String)
    (roots : List (String × StorageRootEntry)) (project_name : String) :
    Except Err (List (String × Option String)) :=
  match roots with
  | [] => .ok []
  | p :: rest =>
    match data_root_entry platform project_name p.2 with
    | .error err => .error err
    | .ok v =>
      match get_data_roots platform rest project_name with
      | .error err => .error err
      | .ok tail => .ok ((p.1, v) :: tail)

/-! ## Tracking-service records

Responses of the external tracking service (`sg.find_one` / `sg.find` /
`login.get_shotgun_user`), as field records.  A field that the query
fetched but whose stored value is null reads back as `None` (`Option`). -/

/-- The `sg.find_one(entity_type, ..., ["project"])` response in
`from_entity`: only the presence of the `project` relation is consulted
(its value flows only into messages and the follow-up query, whose
response is itself a parameter). -/
structure SgEntity where
  project : Option Unit
  deriving DecidableEq, Repr

/-- A pipeline-configuration entity as fetched by `from_entity`
(fields `windows_path, mac_path, linux_path, code`). -/
structure PcEntity where
  code : Option String
  windows_path : Option String
  mac_path : Option String
  linux_path : Option String
  deriving DecidableEq, Repr

/-- `pc.get(key)` for a key produced by `platform_lookup_key`. -/
def pcGet (key : String) (pc : PcEntity) : Option String :=
  if key = "linux_path" then pc.linux_path
  else if key = "windows_path" then pc.windows_path
  else pc.mac_path

/-- A tracking-service user record; `x.get("id")`. -/
structure SgUser where
  id : Option Int
  deriving DecidableEq, Repr

/-- A pipeline-configuration entity as fetched by `from_path`
(fields `code, users, windows_path, mac_path, linux_path`). -/
structure SgPipelineConfig where
  code : Option String
  users : Option (List SgUser)
  windows_path : Option String
  mac_path : Option String
  linux_path : Option String
  deriving DecidableEq, Repr

/-- `p.get(key)` on a `from_path` pipeline-configuration record. -/
def sgpcGet (key : String) (p : SgPipelineConfig) : Option String :=
  if key = "linux_path" then p.linux_path
  else if key = "windows_path" then p.windows_path
  else p.mac_path

/-! ## Shared environment-value cleanup -/

/-- The `TANK_CURRENT_PC` cleanup performed identically at
`from_entity` lines 490-494 and `from_path` lines 602-607: strip one
trailing space (`"windows paths can end with a space"`), then one
trailing backslash (`"windows tends to end with a backslash"`). -/
def clean_tank_current_pc (s : String) : String :=
  let s := if pyEndsWith s " " then pyDropLast s else s
  if pyEndsWith s "\\" then pyDropLast s else s

/-! ## Registered location (`get_pc_registered_location`) -/

/-- The parsed `config/core/install_location.yml` mapping
(keys `Linux`, `Windows`, `Darwin`). -/
structure InstallLocation where
  linux : Option String
  windows : Option String
  darwin : Option String
  deriving DecidableEq, Repr

/-- `get_pc_registered_location` (lines 702-735) after the file read:
branch on `sys.platform` and return the matching entry, raising
`UnsupportedPlatform` outside the supported three.  The file read
itself is the `Except` argument (`CorruptConfig` on parse failure). -/
def get_pc_registered_location (platform : String)
    (read_install_location : Except Err InstallLocation) :
    Except Err (Option String) :=
  match read_install_location with
  | .error err => .error err
  | .ok data =>
    if platform = "linux2" then .ok data.linux
    else if platform = "win32" then .ok data.windows
    else if platform = "darwin" then .ok data.darwin
    else .error .UnsupportedPlatform

/-! ## `from_entity` (lines 408-525) -/

/-- The branch of `from_entity` below the comment block at lines 441-448,
reached once the entity, its project and a non-empty pipeline-config list
are in hand: resolve via the primary configuration (no `TANK_CURRENT_PC`,
lines 450-479) or via the registered location of the active configuration
(lines 484-525). -/
def from_entity_resolve (platform : String)
    (pipe_configs : List PcEntity)
    (env_tank_current_pc : Option String)
    (ex : String → Bool)
    (read_install_location_at : String → Except Err InstallLocation) :
    Except Err String :=
  match env_tank_current_pc with
  | none =>
    -- generic invocation: find the primary pipeline config
    match pipe_configs.find?
        (fun pc => pc.code = some PRIMARY_PIPELINE_CONFIG_NAME) with
    | none => .error .NoPrimaryConfiguration
    | some primary_pc =>
      match platform_lookup_key platform with
      | .error err => .error err
      | .ok key =>
        match pcGet key primary_pc with
        | none => .error .PlatformPathMissing
        | some current_os_path =>
          if ex current_os_path then .ok current_os_path
          else .error .PathNotFound
  | some raw =>
    -- invoked from a specific PC's tank command
    let curr_pc_path := clean_tank_current_pc raw
    match get_pc_registered_location platform
        (read_install_location_at curr_pc_path) with
    | .error err => .error err
    | .ok none => .error .UnregisteredLocation
    | .ok (some pc_registered_path) =>
      match platform_lookup_key platform with
      | .error err => .error err
      | .ok key =>
        match pipe_configs.find?
            (fun pc => pcGet key pc = some pc_registered_path) with
        | none => .error .ConfigurationNotInProject
        | some _ => .ok pc_registered_path

/-- `from_entity` after its two tracking-service round-trips, as a
function of their responses.

* `find_one_result` — the `sg.find_one(entity_type, [["id","is",id]],
  ["project"])` response (`None` when the entity does not exist);
* `pipe_configs` — the `sg.find(PIPELINE_CONFIGURATION_ENTITY, ...)`
  response for the owning project;
* `env_tank_current_pc` — `os.environ["TANK_CURRENT_PC"]` when set;
* `ex` — `os.path.exists`;
* `read_install_location_at` — the parsed
  `<path>/config/core/install_location.yml` read performed by
  `get_pc_registered_location`.

Returns the root path handed to the `PipelineConfiguration`
constructor. -/
def from_entity (platform entity_type : String)
    (find_one_result : Option SgEntity)
    (pipe_configs : List PcEntity)
    (env_tank_current_pc : Option String)
    (ex : String → Bool)
    (read_install_location_at : String → Except Err InstallLocation) :
    Except Err String :=
  match find_one_result with
  | none => .error .EntityNotFound
  | some e =>
    let projCheck : Except Err Unit :=
      if entity_type = "Project" then .ok ()
      else match e.project with
        | none => .error .EntityNotLinked
        | some _ => .ok ()
    match projCheck with
    | .error err => .error err
    | .ok _ =>
      if pipe_configs.length = 0 then .error .NoConfigurationsForProject
      else
        from_entity_resolve platform pipe_configs env_tank_current_pc ex
          read_install_location_at

/-! ## `from_path` (lines 530-676) -/

/-- `os.path.join(path, "config", "core", "pipeline_configuration.yml")`
— the configuration-root marker file checked at line 556. -/
def pc_marker (platform path : String) : String :=
  osJoin platform
    (osJoin platform (osJoin platform path "config") "core")
    "pipeline_configuration.yml"

/-- `os.path.join(cur_path, "tank", "config", CONFIG_BACK_MAPPING_FILE)`
— the back-mapping marker probed during the ancestor walk (line 566). -/
def back_mapping_marker (platform cur_path : String) : String :=
  osJoin platform
    (osJoin platform (osJoin platform cur_path "tank") "config")
    CONFIG_BACK_MAPPING_FILE

/-- The ancestor walk of `from_path` (lines 563-575): probe the
back-mapping marker at `cur_path`, stop when found, fail with
`NotInProject` when `os.path.dirname` tops out (`parent == cur`),
otherwise recurse on the parent.  The Python `while True` loop is
modelled with explicit fuel; `.ok none` means the fuel ran out while
the loop was still running (an artifact, mapped to `Err.outOfFuel`
by the caller). -/
def find_back_mapping (platform : String) (ex : String → Bool)
    (dirname : String → String) : Nat → String → Except Err (Option String)
  | 0, _ => .ok none
  | fuel + 1, cur_path =>
    let config_path := back_mapping_marker platform cur_path
    if ex config_path then .ok (some config_path)
    else
      let parent_path := dirname cur_path
      if parent_path = cur_path then .error .NotInProject
      else find_back_mapping platform ex dirname fuel parent_path

/-- The candidate projection of line 589:
`[x.get(sys.platform) for x in data if x is not None]` — drop null
rows, project the rest to the current-OS entry (which may itself be
`None`). -/
def current_os_pcs (platform : String) (data : List (Option BackMappingRow)) :
    List (Option String) :=
  data.filterMap (Option.map (rowGet platform))

/-- The existence filter of lines 592-595: `os.path.exists(pc)` for each
projected entry in order.  `os.path.exists(None)` raises an uncaught
`TypeError` (Python 2 `os.stat` rejects `None`), which aborts the run. -/
def filterExisting (ex : String → Bool) :
    List (Option String) → Except Err (List String)
  | [] => .ok []
  | none :: _ => .error .uncaughtTypeError
  | some pc :: rest =>
    match filterExisting ex rest with
    | .error err => .error err
    | .ok tail => .ok (if ex pc then pc :: tail else tail)

/-- The eligibility test of lines 647-656: a configuration is kept when
its `users` list is `None` or empty (an open PC), or when there is a
current user whose `id` appears among the `id`s of the `users` list. -/
def eligiblePc (current_user : Option SgUser) (p : SgPipelineConfig) : Bool :=
  match p.users with
  | none => true
  | some users =>
    if users.length = 0 then true
    else
      match current_user with
      | none => false
      | some u => (users.map SgUser.id).contains u.id

/-- The ambiguity-resolution tail of `from_path` (lines 630-676), entered
when no `TANK_CURRENT_PC` is set and the existing-candidate count is not
one: build the `in` filter (the `platform_lookup[sys.platform]` access can
raise `KeyError`), query the service, filter by eligibility, and branch
on the eligible count.  In the ambiguous branch the diagnostic joins
`x.get("code")` and `x.get(<platform field>)` over the matches; a `None`
among them makes `", ".join` raise an uncaught `TypeError`.  In the
single-match branch `PipelineConfiguration(None)` likewise dies with a
`TypeError` when the entity's platform field is null. -/
def resolve_via_sg (platform : String)
    (sg_find : List String → List SgPipelineConfig)
    (current_user : Option SgUser)
    (existing_matching_pcs : List String) : Except Err String :=
  match platform_lookup_key platform with
  | .error err => .error err
  | .ok key =>
    let pipe_configs := sg_find existing_matching_pcs
    let matching_pcs := pipe_configs.filter (eligiblePc current_user)
    match matching_pcs with
    | [] => .error .NoAccessibleConfiguration
    | [p] =>
      match sgpcGet key p with
      | none => .error .uncaughtTypeError
      | some pc_path => .ok pc_path
    | ps =>
      if ps.all (fun x => x.code.isSome) then
        if ps.all (fun x => (sgpcGet key x).isSome) then
          .error .AmbiguousConfiguration
        else .error .uncaughtTypeError
      else .error .uncaughtTypeError

/-- The candidate-disambiguation tail of `from_path` (lines 598-676),
after the candidate set has been built: the `TANK_CURRENT_PC` branch
(clean the value, require membership in the candidate set, otherwise
`ConfigurationMismatch`), the single-candidate shortcut, and the
tracking-service resolution. -/
def resolve_candidates (platform : String)
    (env_tank_current_pc : Option String)
    (sg_find : List String → List SgPipelineConfig)
    (current_user : Option SgUser)
    (existing_matching_pcs : List String) : Except Err String :=
  match env_tank_current_pc with
  | some raw =>
    let curr_pc_path := clean_tank_current_pc raw
    if curr_pc_path ∈ existing_matching_pcs then .ok curr_pc_path
    else .error .ConfigurationMismatch
  | none =>
    match existing_matching_pcs with
    | [single] => .ok single
    | _ => resolve_via_sg platform sg_find current_user existing_matching_pcs

/-- `from_path` (lines 530-676), as a function of the external world:

* `ex` — `os.path.exists`; `dirname` — `os.path.dirname`;
  `abspath` — `os.path.abspath` (the `isinstance(path, basestring)`
  guard is subsumed by the `String` type of `input_path`);
* `readBM` — the parsed back-mapping file at a marker path
  (`CorruptConfig` on parse failure; rows may be null);
* `env_tank_current_pc` — `os.environ["TANK_CURRENT_PC"]` when set;
* `sg_find`, `current_user` — the tracking-service query of lines
  638-643 and the current-user lookup;
* `fuel` — bound for the ancestor-walk loop.

Returns the root path handed to the `PipelineConfiguration`
constructor. -/
def from_path (platform : String) (ex : String → Bool)
    (dirname abspath : String → String)
    (readBM : String → Except Err (List (Option BackMappingRow)))
    (env_tank_current_pc : Option String)
    (sg_find : List String → List SgPipelineConfig)
    (current_user : Option SgUser)
    (fuel : Nat) (input_path : String) : Except Err String :=
  let path₀ := abspath input_path
  let pathCheck : Except Err String :=
    if ex path₀ then .ok path₀
    else if ex (dirname path₀) then .ok (dirname path₀)
    else .error .PathNotFound
  match pathCheck with
  | .error err => .error err
  | .ok path =>
    if ex (pc_marker platform path) then .ok path
    else
      match find_back_mapping platform ex dirname fuel path with
      | .error err => .error err
      | .ok none => .error .outOfFuel
      | .ok (some config_path) =>
        match readBM config_path with
        | .error err => .error err
        | .ok data =>
          match filterExisting ex (current_os_pcs platform data) with
          | .error err => .error err
          | .ok existing_matching_pcs =>
            resolve_candidates platform env_tank_current_pc sg_find
              current_user existing_matching_pcs

/-! ## The back-mapping file write (lines 376-383)

```
try:
    fh = open(self._config_file, "wt")
    yaml.dump(data, fh)
    fh.close()
except Exception, exp:
    raise TankError(...)
```

`open(file, "wt")` truncates the target in place before anything is
written; `yaml.dump` then streams the serialized sequence into it.  The
possible runs are modelled by an outcome parameter: the open itself may
fail (file untouched), or the dump may fail after writing a prefix of
the serialized text (file left truncated), or everything succeeds.  Any
exception is converted to the `WriteFailure` `TankError`. -/

/-- How far the `open`/`dump`/`close` sequence got before failing. -/
inductive WriteOutcome where
  | success
  | failOpen
  | failDump (written : String)
  deriving DecidableEq, Repr

/-- File content before/after the write (`none` = file absent). -/
def writeBackMappingFile (prior : Option String) (serialized : String)
    (outcome : WriteOutcome) : Option String × Except Err Unit :=
  match outcome with
  | .success => (some serialized, .ok ())
  | .failOpen => (prior, .error .WriteFailure)
  | .failDump written => (some written, .error .WriteFailure)

/-! ## Spec-side comparator for the cleanup (refinement check)

The spec describes the cleanup as stripping "a single trailing space
and/or trailing OS-specific separator".  The following definition
follows the spec's words (it is *not* translated from the source) and
exists only to be compared with `clean_tank_current_pc`. -/

/-- Modelled from the spec's words for comparison with the source's
`clean_tank_current_pc`: strip a single trailing space and/or a single
trailing separator *of the current OS*. -/
def clean_active_identity_spec (platform : String) (s : String) : String :=
  let s := if pyEndsWith s " " then pyDropLast s else s
  if pyEndsWith s (osSepStr platform) then pyDropLast s else s

/-! ## Decidability helper -/

/-- Decidable equality of `Except` results, for evaluating the embedded
functions on concrete inputs. -/
instance {ε α : Type} [DecidableEq ε] [DecidableEq α] :
    DecidableEq (Except ε α)
  | .error e₁, .error e₂ =>
    if h : e₁ = e₂ then .isTrue (by rw [h])
    else .isFalse (fun hh => h (by injection hh))
  | .error _, .ok _ => .isFalse (fun hh => Except.noConfusion hh)
  | .ok _, .error _ => .isFalse (fun hh => Except.noConfusion hh)
  | .ok a₁, .ok a₂ =>
    if h : a₁ = a₂ then .isTrue (by rw [h])
    else .isFalse (fun hh => h (by injection hh))

/-! ## Helper lemmas -/

theorem pyEndsWith_append_char (p : String) (c : Char) :
    pyEndsWith (p ++ String.mk [c]) (String.mk [c]) = true := by
  simp [pyEndsWith, String.data_append, List.isSuffixOf_iff_suffix]

theorem pyEndsWith_append_char_ne (p : String) (c d : Char) (h : c ≠ d) :
    pyEndsWith (p ++ String.mk [c]) (String.mk [d]) = false := by
  simp only [pyEndsWith, String.data_append]
  rw [Bool.eq_false_iff]
  intro hsuf
  rw [List.isSuffixOf_iff_suffix] at hsuf
  obtain ⟨t, ht⟩ := hsuf
  have := congrArg List.getLast? ht
  rw [List.getLast?_concat, List.getLast?_concat] at this
  exact h (Option.some.inj this).symm

theorem pyDropLast_append_char (p : String) (c : Char) :
    pyDropLast (p ++ String.mk [c]) = p := by
  simp [pyDropLast, String.data_append, List.dropLast_concat]

theorem clean_tank_append_space (p : String)
    (h2 : pyEndsWith p "\\" = false) :
    clean_tank_current_pc (p ++ " ") = p := by
  have h1 : pyEndsWith (p ++ " ") " " = true := pyEndsWith_append_char p ' '
  have h3 : pyDropLast (p ++ " ") = p := pyDropLast_append_char p ' '
  simp [clean_tank_current_pc, h1, h3, h2]

theorem clean_tank_append_backslash (p : String) :
    clean_tank_current_pc (p ++ "\\") = p := by
  have h1 : pyEndsWith (p ++ "\\") " " = false :=
    pyEndsWith_append_char_ne p '\\' ' ' (by decide)
  have h2 : pyEndsWith (p ++ "\\") "\\" = true := pyEndsWith_append_char p '\\'
  have h3 : pyDropLast (p ++ "\\") = p := pyDropLast_append_char p '\\'
  simp [clean_tank_current_pc, h1, h2, h3]

theorem clean_tank_append_backslash_space (p : String) :
    clean_tank_current_pc ((p ++ "\\") ++ " ") = p := by
  have h1 : pyEndsWith ((p ++ "\\") ++ " ") " " = true :=
    pyEndsWith_append_char (p ++ "\\") ' '
  have h3 : pyDropLast ((p ++ "\\") ++ " ") = p ++ "\\" :=
    pyDropLast_append_char (p ++ "\\") '\\' ▸ pyDropLast_append_char (p ++ "\\") ' '
  have h2 : pyEndsWith (p ++ "\\") "\\" = true := pyEndsWith_append_char p '\\'
  have h4 : pyDropLast (p ++ "\\") = p := pyDropLast_append_char p '\\'
  simp [clean_tank_current_pc, h1, h2, h3, h4]

theorem clean_tank_noop (p : String)
    (h1 : pyEndsWith p " " = false) (h2 : pyEndsWith p "\\" = false) :
    clean_tank_current_pc p = p := by
  simp [clean_tank_current_pc, h1, h2]

/-- Under the stated stage facts, `from_path` reaches the candidate
disambiguation with the given candidate set. -/
theorem from_path_reaches_candidates (platform : String) (ex : String → Bool)
    (dirname abspath : String → String)
    (readBM : String → Except Err (List (Option BackMappingRow)))
    (env_tank_current_pc : Option String)
    (sg_find : List String → List SgPipelineConfig)
    (current_user : Option SgUser) (fuel : Nat) (input_path : String)
    (config_path : String) (data : List (Option BackMappingRow))
    (existing : List String)
    (hex0 : ex (abspath input_path) = true)
    (hmark : ex (pc_marker platform (abspath input_path)) = false)
    (hwalk : find_back_mapping platform ex dirname fuel (abspath input_path)
      = .ok (some config_path))
    (hread : readBM config_path = .ok data)
    (hfilter : filterExisting ex (current_os_pcs platform data) = .ok existing) :
    from_path platform ex dirname abspath readBM env_tank_current_pc sg_find
        current_user fuel input_path
      = resolve_candidates platform env_tank_current_pc sg_find current_user
          existing := by
  simp [from_path, hex0, hmark, hwalk, hread, hfilter]

/-- Under the stated entity/project/config-list facts, `from_entity`
reaches its resolution branch. -/
theorem from_entity_reaches_resolve (platform entity_type : String)
    (e : SgEntity) (pipe_configs : List PcEntity)
    (env_tank_current_pc : Option String) (ex : String → Bool)
    (read_install_location_at : String → Except Err InstallLocation)
    (hproj : entity_type = "Project" ∨ e.project.isSome)
    (hne : pipe_configs ≠ []) :
    from_entity platform entity_type (some e) pipe_configs env_tank_current_pc
        ex read_install_location_at
      = from_entity_resolve platform pipe_configs env_tank_current_pc ex
          read_install_location_at := by
  have hlen : ¬ pipe_configs.length = 0 := by simp [List.length_eq_zero, hne]
  rcases hproj with h | h
  · simp [from_entity, h, hlen]
  · obtain ⟨u, hu⟩ := Option.isSome_iff_exists.mp h
    by_cases ht : entity_type = "Project" <;> simp [from_entity, ht, hu, hlen]

/-! ## Concrete external worlds used by witnesses and counterexamples -/

/-- Paths that exist on disk in the witness world. -/
def fsPaths : List String :=
  ["/proj", "/proj/x", "/proj/tank/config/tank_configs.yml",
   "/cfg/A", "/cfg/B", "/studio/pc",
   "/cfg/A/config/core/pipeline_configuration.yml"]

/-- `os.path.exists` of the witness world. -/
def fsExists (s : String) : Bool := fsPaths.contains s

/-- `os.path.dirname` of the witness world. -/
def fsDirname (s : String) : String := if s = "/proj/x" then "/proj" else "/"

/-- `os.path.abspath` of the witness world (all inputs already
absolute and normalized). -/
def fsAbspath (s : String) : String := s

/-- Back-mapping rows of the witness world. -/
def rowA : BackMappingRow := ⟨some "/mac/A", some "C:\\A", some "/cfg/A"⟩

def rowB : BackMappingRow := ⟨some "/mac/B", some "C:\\B", some "/cfg/B"⟩

def rowP : BackMappingRow := ⟨some "/mac/pc", some "C:\\pc", some "/studio/pc"⟩

/-- A row with no path recorded for `linux2`. -/
def rowNoLinux : BackMappingRow := ⟨some "/mac/pc", some "C:\\pc", none⟩

/-- A back-mapping file with the two candidates `/cfg/A` and `/cfg/B`. -/
def readTwoConfigs (_ : String) : Except Err (List (Option BackMappingRow)) :=
  .ok [some rowA, some rowB]

/-- A back-mapping file whose only candidate is `/studio/pc`. -/
def readStudioPc (_ : String) : Except Err (List (Option BackMappingRow)) :=
  .ok [some rowP]

/-- A back-mapping file whose only row lacks a `linux2` path. -/
def readNoLinux (_ : String) : Except Err (List (Option BackMappingRow)) :=
  .ok [some rowNoLinux]

/-- The tracking-service pipeline-config entity for candidate A. -/
def pcEntityA (users : List SgUser) : SgPipelineConfig :=
  ⟨some "cfgA", some users, some "C:\\A", some "/mac/A", some "/cfg/A"⟩

/-- The tracking-service pipeline-config entity for candidate B. -/
def pcEntityB (users : List SgUser) : SgPipelineConfig :=
  ⟨some "cfgB", some users, some "C:\\B", some "/mac/B", some "/cfg/B"⟩

/-- Tracking service where only B authorizes user 7. -/
def sgOnlyB (_ : List String) : List SgPipelineConfig :=
  [pcEntityA [⟨some 9⟩], pcEntityB [⟨some 7⟩]]

/-- Tracking service where both A and B authorize user 7. -/
def sgBoth (_ : List String) : List SgPipelineConfig :=
  [pcEntityA [⟨some 7⟩], pcEntityB [⟨some 7⟩]]

/-! ## C6 — roots normalization -/

/-- **C6, counterexample**: the claim says the output of
`__load_roots_meatadata` never contains a trailing separator.  At the
concrete input whose mac path is `/studio//` the loader strips exactly
one slash and the output path `/studio/` still ends with the
separator. -/
theorem c6_roots_trailing_sep_counterexample :
    load_roots_metadata
        [(PRIMARY_STORAGE_NAME, ⟨some "/studio//", some "/studio", none⟩)]
      = .ok [(PRIMARY_STORAGE_NAME, ⟨some "/studio/", some "/studio", none⟩)]
    ∧ pyEndsWith "/studio/" "/" = true := by
  exact ⟨by decide, by decide⟩

/-- **C6 (amended)**: `__load_roots_meatadata` normalizes each platform
path by stripping exactly one trailing separator (`/` for mac and linux,
`\` for windows) when present; consequently an output path carries no
trailing separator unless the corresponding input path ended with two or
more separators. -/
theorem c6_roots_strip_one_trailing_sep
    (data out : List (String × StorageRootEntry))
    (h : load_roots_metadata data = .ok out) :
    out = data.map (fun p => (p.1, normalizeRootsEntry p.2)) ∧
    (∀ s, pyEndsWith s "/" = true → stripOneTrailing "/" s = pyDropLast s) ∧
    (∀ s, pyEndsWith s "\\" = true → stripOneTrailing "\\" s = pyDropLast s) ∧
    (∀ s, pyEndsWith (pyDropLast s) "/" = false →
      pyEndsWith (stripOneTrailing "/" s) "/" = false) ∧
    (∀ s, pyEndsWith (pyDropLast s) "\\" = false →
      pyEndsWith (stripOneTrailing "\\" s) "\\" = false) := by
  refine ⟨?_, ?_, ?_, ?_, ?_⟩
  · by_cases hm : PRIMARY_STORAGE_NAME ∈ data.map Prod.fst
    · simp [load_roots_metadata, hm] at h
      exact h.symm
    · simp [load_roots_metadata, hm] at h
  · intro s hs; simp [stripOneTrailing, hs]
  · intro s hs; simp [stripOneTrailing, hs]
  · intro s hs
    cases hb : pyEndsWith s "/" with
    | false => simp [stripOneTrailing, hb]
    | true => simp [stripOneTrailing, hb, hs]
  · intro s hs
    cases hb : pyEndsWith s "\\" with
    | false => simp [stripOneTrailing, hb]
    | true => simp [stripOneTrailing, hb, hs]

/-- **C6 witness**: the amended theorem applied to a concrete roots
file, showing a single-trailing-slash input comes out clean. -/
theorem c6_roots_strip_one_trailing_sep_witness :
    pyEndsWith (stripOneTrailing "/" "/studio/") "/" = false :=
  (c6_roots_strip_one_trailing_sep
      [(PRIMARY_STORAGE_NAME, ⟨some "/studio/", some "/studio", none⟩)]
      [(PRIMARY_STORAGE_NAME, ⟨some "/studio", some "/studio", none⟩)]
      (by decide)).2.2.2.1 "/studio/" (by decide)

/-! ## C7 — back-mapping append idempotence -/

/-- **C7**: `add_pipeline_configuration` is idempotent under structurally
identical triples: appending a triple already present leaves the stored
sequence unchanged; appending twice equals appending once; and for a
fresh triple the result is the old sequence with the new triple at the
end — so appending the same fresh triple twice in succession yields a
sequence exactly one element longer than before, ending in that
triple. -/
theorem c7_add_pipeline_configuration_idempotent
    (data : List BackMappingRow) (t : BackMappingRow) :
    (t ∈ data → add_pipeline_configuration data t.darwin t.win32 t.linux2 = data) ∧
    add_pipeline_configuration
        (add_pipeline_configuration data t.darwin t.win32 t.linux2)
        t.darwin t.win32 t.linux2
      = add_pipeline_configuration data t.darwin t.win32 t.linux2 ∧
    (t ∉ data →
      add_pipeline_configuration data t.darwin t.win32 t.linux2 = data ++ [t] ∧
      (add_pipeline_configuration
          (add_pipeline_configuration data t.darwin t.win32 t.linux2)
          t.darwin t.win32 t.linux2).length = data.length + 1 ∧
      (add_pipeline_configuration
          (add_pipeline_configuration data t.darwin t.win32 t.linux2)
          t.darwin t.win32 t.linux2).getLast? = some t) := by
  have heta :
      ({darwin := t.darwin, win32 := t.win32, linux2 := t.linux2} :
        BackMappingRow) = t := rfl
  refine ⟨?_, ?_, ?_⟩
  · intro h; simp [add_pipeline_configuration, heta, h]
  · by_cases h : t ∈ data
    · simp [add_pipeline_configuration, heta, h]
    · simp [add_pipeline_configuration, heta, h]
  · intro h
    refine ⟨?_, ?_, ?_⟩ <;>
      simp [add_pipeline_configuration, heta, h, List.getLast?_concat]

/-- **C7 witness**: appending the same fresh triple twice to the empty
store yields exactly one stored row. -/
theorem c7_add_pipeline_configuration_idempotent_witness :
    (add_pipeline_configuration
        (add_pipeline_configuration [] (some "/mac/A") (some "C:\\A")
          (some "/cfg/A"))
        (some "/mac/A") (some "C:\\A") (some "/cfg/A")).length = 1 := by
  have h := c7_add_pipeline_configuration_idempotent []
    ⟨some "/mac/A", some "C:\\A", some "/cfg/A"⟩
  simpa using (h.2.2 (by decide)).2.1

/-! ## C8 — back-mapping write semantics -/

/-- **C8, counterexample**: the claim says a failed write leaves the
previously stored content intact.  `open(file, "wt")` truncates the file
before `yaml.dump` runs, so a dump failure leaves a truncated file: the
run fails with `WriteFailure` but the prior content is gone. -/
theorem c8_write_truncates_counterexample :
    writeBackMappingFile (some "old-content") "new-content" (.failDump "")
      = (some "", .error .WriteFailure)
    ∧ (some "" : Option String) ≠ some "old-content" := by
  exact ⟨rfl, by decide⟩

/-- **C8 (amended)**: every failing run of the back-mapping write raises
`WriteFailure`; a failure of the `open` itself leaves the prior content,
but a failure during `yaml.dump` leaves whatever prefix was written (the
file was already truncated in place) — the write is open-truncate-write,
not write-to-temp-then-replace. -/
theorem c8_write_failure_semantics (prior : Option String)
    (serialized : String) (outcome : WriteOutcome)
    (h : outcome ≠ .success) :
    (writeBackMappingFile prior serialized outcome).2 = .error .WriteFailure ∧
    (outcome = .failOpen →
      (writeBackMappingFile prior serialized outcome).1 = prior) ∧
    (∀ w, outcome = .failDump w →
      (writeBackMappingFile prior serialized outcome).1 = some w) := by
  cases outcome with
  | success => exact absurd rfl h
  | failOpen =>
    exact ⟨rfl, fun _ => rfl, fun w hw => WriteOutcome.noConfusion hw⟩
  | failDump w0 =>
    refine ⟨rfl, fun hw => WriteOutcome.noConfusion hw, fun w hw => ?_⟩
    cases hw; rfl

/-- **C8 witness**: a failure of the `open` call itself reports
`WriteFailure` with the prior content intact. -/
theorem c8_write_failure_semantics_witness :
    (writeBackMappingFile (some "old-content") "new-content" .failOpen).1
      = some "old-content" :=
  (c8_write_failure_semantics (some "old-content") "new-content" .failOpen
    (by decide)).2.1 rfl

/-! ## C1 — entity resolution without an active identity -/

/-- **C1**: with no `TANK_CURRENT_PC` in the environment, `from_entity`
selects the first configuration entity whose `code` equals the reserved
primary name, and in this order: fails with `NoPrimaryConfiguration`
when no entity's code matches; else fails with `PlatformPathMissing`
when the selected entity has no path for the current OS; else fails
with `PathNotFound` when that path does not exist on disk; else
succeeds with exactly that path. -/
theorem c1_from_entity_primary_resolution
    (platform entity_type : String) (e : SgEntity)
    (pipe_configs : List PcEntity) (ex : String → Bool)
    (read_install_location_at : String → Except Err InstallLocation)
    (key : String)
    (hproj : entity_type = "Project" ∨ e.project.isSome)
    (hne : pipe_configs ≠ [])
    (hkey : platform_lookup_key platform = .ok key) :
    ((∀ pc ∈ pipe_configs, pc.code ≠ some PRIMARY_PIPELINE_CONFIG_NAME) →
      from_entity platform entity_type (some e) pipe_configs none ex
          read_install_location_at
        = .error .NoPrimaryConfiguration) ∧
    (∀ primary_pc,
      pipe_configs.find?
          (fun pc => pc.code = some PRIMARY_PIPELINE_CONFIG_NAME)
        = some primary_pc →
      (pcGet key primary_pc = none →
        from_entity platform entity_type (some e) pipe_configs none ex
            read_install_location_at
          = .error .PlatformPathMissing) ∧
      (∀ p, pcGet key primary_pc = some p →
        (ex p = false →
          from_entity platform entity_type (some e) pipe_configs none ex
              read_install_location_at
            = .error .PathNotFound) ∧
        (ex p = true →
          from_entity platform entity_type (some e) pipe_configs none ex
              read_install_location_at
            = .ok p))) := by
  have hresolve := from_entity_reaches_resolve platform entity_type e
    pipe_configs none ex read_install_location_at hproj hne
  constructor
  · intro hall
    have hfind : pipe_configs.find?
        (fun pc => pc.code = some PRIMARY_PIPELINE_CONFIG_NAME) = none := by
      rw [List.find?_eq_none]
      intro x hx
      simpa using hall x hx
    rw [hresolve]
    simp [from_entity_resolve, hfind]
  · intro primary_pc hfind
    refine ⟨?_, ?_⟩
    · intro hget
      rw [hresolve]
      simp [from_entity_resolve, hfind, hkey, hget]
    · intro p hget
      refine ⟨fun hex => ?_, fun hex => ?_⟩ <;>
        · rw [hresolve]
          simp [from_entity_resolve, hfind, hkey, hget, hex]

/-- **C1 witness**: a project with a single primary configuration whose
linux path exists resolves to exactly that path. -/
theorem c1_from_entity_primary_resolution_witness :
    from_entity "linux2" "Project" (some ⟨some ()⟩)
        [⟨some PRIMARY_PIPELINE_CONFIG_NAME, none, none, some "/cfg/A"⟩]
        none fsExists (fun _ => .error .CorruptConfig)
      = .ok "/cfg/A" := by
  have h := c1_from_entity_primary_resolution "linux2" "Project" ⟨some ()⟩
    [⟨some PRIMARY_PIPELINE_CONFIG_NAME, none, none, some "/cfg/A"⟩]
    fsExists (fun _ => .error .CorruptConfig) "linux_path"
    (Or.inl rfl) (by simp) rfl
  exact ((h.2 ⟨some PRIMARY_PIPELINE_CONFIG_NAME, none, none, some "/cfg/A"⟩
    (by decide)).2 "/cfg/A" rfl).2 (by decide)

/-! ## C4 — active-identity normalization -/

/-- **C4, counterexample**: the claim says both resolvers strip a single
trailing OS-specific separator from the active-identity value.  On
linux the OS separator is `/`, yet the source only ever strips a
trailing backslash: the value `/studio/pc/` is left unchanged, so a
resolution that the claim says must succeed with `/studio/pc` instead
fails with `ConfigurationMismatch` (the clean value succeeds). -/
theorem c4_normalization_counterexample :
    osSepStr "linux2" = "/"
    ∧ clean_active_identity_spec "linux2" "/studio/pc/" = "/studio/pc"
    ∧ clean_tank_current_pc "/studio/pc/" = "/studio/pc/"
    ∧ from_path "linux2" fsExists fsDirname fsAbspath readStudioPc
        (some "/studio/pc/") (fun _ => []) none 10 "/proj/x"
      = .error .ConfigurationMismatch
    ∧ from_path "linux2" fsExists fsDirname fsAbspath readStudioPc
        (some "/studio/pc") (fun _ => []) none 10 "/proj/x"
      = .ok "/studio/pc" := by
  exact ⟨rfl, by decide, by decide, by decide, by decide⟩

/-- **C4 (amended)**: both resolvers normalize the active-identity value
by stripping a single trailing space and then a single trailing
backslash (the Windows separator — on every OS; a trailing forward
slash is never stripped).  A value with such stray trailing characters
compares equal to the clean registered path: the cleanup maps `p ++ " "`,
`p ++ "\"`, `p ++ "\" ++ " "` and `p` itself all to `p`, and each
resolver's result on such an environment value equals its result on the
clean value. -/
theorem c4_normalization_strips_space_and_backslash (p : String)
    (h1 : pyEndsWith p " " = false) (h2 : pyEndsWith p "\\" = false) :
    clean_tank_current_pc (p ++ " ") = p ∧
    clean_tank_current_pc (p ++ "\\") = p ∧
    clean_tank_current_pc ((p ++ "\\") ++ " ") = p ∧
    clean_tank_current_pc p = p ∧
    (∀ platform ex dirname abspath readBM sg_find current_user fuel
        input_path,
      from_path platform ex dirname abspath readBM (some (p ++ " "))
          sg_find current_user fuel input_path
        = from_path platform ex dirname abspath readBM (some p)
            sg_find current_user fuel input_path) ∧
    (∀ platform entity_type find_one_result pipe_configs ex
        read_install_location_at,
      from_entity platform entity_type find_one_result pipe_configs
          (some (p ++ " ")) ex read_install_location_at
        = from_entity platform entity_type find_one_result pipe_configs
            (some p) ex read_install_location_at) := by
  have hc1 : clean_tank_current_pc (p ++ " ") = p := clean_tank_append_space p h2
  have hc4 : clean_tank_current_pc p = p := clean_tank_noop p h1 h2
  have hcc : clean_tank_current_pc (p ++ " ") = clean_tank_current_pc p := by
    rw [hc1, hc4]
  refine ⟨hc1, clean_tank_append_backslash p,
    clean_tank_append_backslash_space p, hc4, ?_, ?_⟩
  · intro platform ex dirname abspath readBM sg_find current_user fuel
      input_path
    have hrc : ∀ sg cu l,
        resolve_candidates platform (some (p ++ " ")) sg cu l
          = resolve_candidates platform (some p) sg cu l := by
      intro sg cu l
      simp [resolve_candidates, hcc]
    simp only [from_path, hrc]
  · intro platform entity_type find_one_result pipe_configs ex
      read_install_location_at
    have hre : from_entity_resolve platform pipe_configs (some (p ++ " "))
        ex read_install_location_at
        = from_entity_resolve platform pipe_configs (some p) ex
            read_install_location_at := by
      simp [from_entity_resolve, hcc]
    simp only [from_entity, hre]

/-- **C4 witness**: the spec's example — the environment value
`"/studio/pc "` (trailing space) compares equal to the registered path
`"/studio/pc"`. -/
theorem c4_normalization_strips_space_and_backslash_witness :
    clean_tank_current_pc ("/studio/pc" ++ " ") = "/studio/pc" :=
  (c4_normalization_strips_space_and_backslash "/studio/pc"
    (by decide) (by decide)).1

/-! ## C3 — path resolution with an active identity -/

/-- **C3**: when `TANK_CURRENT_PC` is set and `from_path` reaches the
back-mapping candidate stage, it succeeds with the normalized
active-identity path exactly when that path is in the existing-on-disk
candidate set, and otherwise fails with `ConfigurationMismatch`; the
tracking service is never consulted in this branch (the result equals
the result with an empty tracking service and no user). -/
theorem c3_from_path_active_identity
    (platform : String) (ex : String → Bool)
    (dirname abspath : String → String)
    (readBM : String → Except Err (List (Option BackMappingRow)))
    (v : String) (sg_find : List String → List SgPipelineConfig)
    (current_user : Option SgUser) (fuel : Nat) (input_path : String)
    (config_path : String) (data : List (Option BackMappingRow))
    (existing : List String)
    (hex0 : ex (abspath input_path) = true)
    (hmark : ex (pc_marker platform (abspath input_path)) = false)
    (hwalk : find_back_mapping platform ex dirname fuel (abspath input_path)
      = .ok (some config_path))
    (hread : readBM config_path = .ok data)
    (hfilter : filterExisting ex (current_os_pcs platform data)
      = .ok existing) :
    (clean_tank_current_pc v ∈ existing →
      from_path platform ex dirname abspath readBM (some v) sg_find
          current_user fuel input_path
        = .ok (clean_tank_current_pc v)) ∧
    (clean_tank_current_pc v ∉ existing →
      from_path platform ex dirname abspath readBM (some v) sg_find
          current_user fuel input_path
        = .error .ConfigurationMismatch) ∧
    from_path platform ex dirname abspath readBM (some v) sg_find
        current_user fuel input_path
      = from_path platform ex dirname abspath readBM (some v)
          (fun _ => []) none fuel input_path := by
  have h1 := from_path_reaches_candidates platform ex dirname abspath readBM
    (some v) sg_find current_user fuel input_path config_path data existing
    hex0 hmark hwalk hread hfilter
  have h2 := from_path_reaches_candidates platform ex dirname abspath readBM
    (some v) (fun _ => []) none fuel input_path config_path data existing
    hex0 hmark hwalk hread hfilter
  refine ⟨?_, ?_, ?_⟩
  · intro hmem
    rw [h1]
    simp [resolve_candidates, hmem]
  · intro hmem
    rw [h1]
    simp [resolve_candidates, hmem]
  · rw [h1, h2]
    rfl

/-- **C3 witness**: with candidates `/cfg/A`, `/cfg/B` on disk and
`TANK_CURRENT_PC = "/cfg/A "` the resolution returns the normalized
active path, for any tracking-service state. -/
theorem c3_from_path_active_identity_witness :
    from_path "linux2" fsExists fsDirname fsAbspath readTwoConfigs
        (some "/cfg/A ") sgBoth (some ⟨some 7⟩) 10 "/proj/x"
      = .ok "/cfg/A" := by
  have h := c3_from_path_active_identity "linux2" fsExists fsDirname
    fsAbspath readTwoConfigs "/cfg/A " sgBoth (some ⟨some 7⟩) 10 "/proj/x"
    "/proj/tank/config/tank_configs.yml" [some rowA, some rowB]
    ["/cfg/A", "/cfg/B"] (by decide) (by decide) (by decide) rfl (by decide)
  have hres := h.1 (by decide)
  simpa using hres

/-! ## C5 — a configuration root resolves to itself -/

/-- **C5**: when the (absolutized) input path exists and carries the
configuration marker file, `from_path` succeeds immediately with exactly
that path — for every `dirname`, back-mapping content, environment and
tracking-service state, i.e. without walking ancestors, reading the
back-mapping file or consulting the environment or the service.  Hence
resolution is idempotent: a resolved root that is a configuration root
resolves to itself. -/
theorem c5_from_path_config_root_immediate
    (platform : String) (ex : String → Bool)
    (dirname abspath : String → String)
    (readBM : String → Except Err (List (Option BackMappingRow)))
    (env_tank_current_pc : Option String)
    (sg_find : List String → List SgPipelineConfig)
    (current_user : Option SgUser) (fuel : Nat) (input_path : String)
    (hex : ex (abspath input_path) = true)
    (hmark : ex (pc_marker platform (abspath input_path)) = true) :
    from_path platform ex dirname abspath readBM env_tank_current_pc
        sg_find current_user fuel input_path
      = .ok (abspath input_path) ∧
    (∀ r, from_path platform ex dirname abspath readBM env_tank_current_pc
          sg_find current_user fuel input_path = .ok r →
      abspath r = r → ex r = true → ex (pc_marker platform r) = true →
      from_path platform ex dirname abspath readBM env_tank_current_pc
          sg_find current_user fuel r = .ok r) := by
  refine ⟨by simp [from_path, hex, hmark], ?_⟩
  intro r _ habs hexr hmarkr
  simp [from_path, habs, hexr, hmarkr]

/-- **C5 witness**: resolving the configuration root `/cfg/A` (its
marker file exists in the witness world) yields `/cfg/A` itself, and
resolving the result again yields the same root. -/
theorem c5_from_path_config_root_immediate_witness :
    from_path "linux2" fsExists fsDirname fsAbspath readTwoConfigs none
        sgBoth none 10 "/cfg/A" = .ok "/cfg/A" := by
  have h := c5_from_path_config_root_immediate "linux2" fsExists fsDirname
    fsAbspath readTwoConfigs none sgBoth none 10 "/cfg/A"
    (by decide) (by decide)
  exact h.2 "/cfg/A" h.1 rfl (by decide) (by decide)

/-! ## C2 — tracking-service disambiguation -/

/-- **C2**: with no active identity and more than one existing
candidate, `from_path` queries the tracking service and keeps a
candidate exactly when its authorized-user list is absent or empty, or
the current user exists and their identifier appears in it; zero
eligible candidates fail with `NoAccessibleConfiguration`, exactly one
succeeds with that candidate's current-OS path, and more than one fails
with `AmbiguousConfiguration`. -/
theorem c2_from_path_eligibility_disambiguation
    (platform : String) (ex : String → Bool)
    (dirname abspath : String → String)
    (readBM : String → Except Err (List (Option BackMappingRow)))
    (sg_find : List String → List SgPipelineConfig)
    (current_user : Option SgUser) (fuel : Nat) (input_path : String)
    (config_path : String) (data : List (Option BackMappingRow))
    (existing : List String) (key : String)
    (hex0 : ex (abspath input_path) = true)
    (hmark : ex (pc_marker platform (abspath input_path)) = false)
    (hwalk : find_back_mapping platform ex dirname fuel (abspath input_path)
      = .ok (some config_path))
    (hread : readBM config_path = .ok data)
    (hfilter : filterExisting ex (current_os_pcs platform data)
      = .ok existing)
    (hlen : 1 < existing.length)
    (hkey : platform_lookup_key platform = .ok key) :
    (∀ pcEnt, eligiblePc current_user pcEnt = true ↔
      (pcEnt.users = none ∨ pcEnt.users = some [] ∨
        ∃ u, current_user = some u ∧
          u.id ∈ (pcEnt.users.getD []).map SgUser.id)) ∧
    ((sg_find existing).filter (eligiblePc current_user) = [] →
      from_path platform ex dirname abspath readBM none sg_find
          current_user fuel input_path
        = .error .NoAccessibleConfiguration) ∧
    (∀ p pth, (sg_find existing).filter (eligiblePc current_user) = [p] →
      sgpcGet key p = some pth →
      from_path platform ex dirname abspath readBM none sg_find
          current_user fuel input_path
        = .ok pth) ∧
    (∀ x y rest,
      (sg_find existing).filter (eligiblePc current_user) = x :: y :: rest →
      (x :: y :: rest).all (fun q => q.code.isSome) = true →
      (x :: y :: rest).all (fun q => (sgpcGet key q).isSome) = true →
      from_path platform ex dirname abspath readBM none sg_find
          current_user fuel input_path
        = .error .AmbiguousConfiguration) := by
  have hreach := from_path_reaches_candidates platform ex dirname abspath
    readBM none sg_find current_user fuel input_path config_path data
    existing hex0 hmark hwalk hread hfilter
  have hrc : resolve_candidates platform none sg_find current_user existing
      = resolve_via_sg platform sg_find current_user existing := by
    cases existing with
    | nil => simp at hlen
    | cons a tl =>
      cases tl with
      | nil => simp at hlen
      | cons b rest => rfl
  refine ⟨?_, ?_, ?_, ?_⟩
  · intro pcEnt
    cases hu : pcEnt.users with
    | none => simp [eligiblePc, hu]
    | some us =>
      cases us with
      | nil => simp [eligiblePc, hu]
      | cons u₀ utl =>
        cases hcu : current_user with
        | none => simp [eligiblePc, hu, hcu]
        | some u =>
          simp [eligiblePc, hu, hcu, List.contains, List.elem_eq_mem]
  · intro hmat
    rw [hreach, hrc]
    simp [resolve_via_sg, hkey, hmat]
  · intro p pth hmat hget
    rw [hreach, hrc]
    simp [resolve_via_sg, hkey, hmat, hget]
  · intro x y rest hmat hall₁ hall₂
    rw [hreach, hrc]
    simp [resolve_via_sg, hkey, hmat, hall₁, hall₂]

/-- **C2 witness**: the spec scenario.  Candidates `[/cfg/A, /cfg/B]`,
no active identity, user 7: authorized only for B the resolution
succeeds with B; authorized for both it fails with
`AmbiguousConfiguration`. -/
theorem c2_from_path_eligibility_disambiguation_witness :
    (from_path "linux2" fsExists fsDirname fsAbspath readTwoConfigs none
        sgOnlyB (some ⟨some 7⟩) 10 "/proj/x" = .ok "/cfg/B")
    ∧ (from_path "linux2" fsExists fsDirname fsAbspath readTwoConfigs none
        sgBoth (some ⟨some 7⟩) 10 "/proj/x"
      = .error .AmbiguousConfiguration) := by
  constructor
  · exact (c2_from_path_eligibility_disambiguation "linux2" fsExists
      fsDirname fsAbspath readTwoConfigs sgOnlyB (some ⟨some 7⟩) 10
      "/proj/x" "/proj/tank/config/tank_configs.yml" [some rowA, some rowB]
      ["/cfg/A", "/cfg/B"] "linux_path" (by decide) (by decide) (by decide)
      rfl (by decide) (by decide) rfl).2.2.1
      (pcEntityB [⟨some 7⟩]) "/cfg/B" (by decide) (by decide)
  · exact (c2_from_path_eligibility_disambiguation "linux2" fsExists
      fsDirname fsAbspath readTwoConfigs sgBoth (some ⟨some 7⟩) 10
      "/proj/x" "/proj/tank/config/tank_configs.yml" [some rowA, some rowB]
      ["/cfg/A", "/cfg/B"] "linux_path" (by decide) (by decide) (by decide)
      rfl (by decide) (by decide) rfl).2.2.2
      (pcEntityA [⟨some 7⟩]) (pcEntityB [⟨some 7⟩]) [] (by decide)
      (by decide) (by decide)

/-! ## C9 — candidate projection and missing current-OS paths -/

/-- **C9, counterexample**: the claim says rows with no current-OS path
yield absent entries that are filtered out before the existence check,
so building the candidate set never errors.  In the source the filter
`if x is not None` removes only null *rows*; a row whose `linux2` entry
is null projects to `None`, reaches `os.path.exists(None)` and raises an
uncaught `TypeError`, aborting the resolution. -/
theorem c9_absent_path_counterexample :
    current_os_pcs "linux2" [some rowNoLinux] = [none]
    ∧ from_path "linux2" fsExists fsDirname fsAbspath readNoLinux none
        sgBoth none 10 "/proj/x"
      = .error .uncaughtTypeError := by
  exact ⟨rfl, by decide⟩

/-- Processing a projection whose entries are all present applies the
existence filter entrywise and never errors. -/
theorem filterExisting_all_some (ex : String → Bool)
    (l : List (Option String)) (h : ∀ x ∈ l, x.isSome) :
    filterExisting ex l = .ok ((l.filterMap id).filter (fun p => ex p)) := by
  induction l with
  | nil => rfl
  | cons a tl ih =>
    cases a with
    | none => exact absurd (h none (List.mem_cons_self _ _)) (by simp)
    | some p =>
      have htl : ∀ x ∈ tl, x.isSome := fun x hx =>
        h x (List.mem_cons_of_mem _ hx)
      by_cases he : ex p <;>
        simp [filterExisting, ih htl, he, List.filter_cons]

/-- **C9 (amended)**: the projection `current_os_pcs` drops null rows
(not rows lacking a current-OS path), and whenever every non-null row
carries a path for the current OS the candidate-set construction is
total: the existence filter is applied only to present path values and
returns the existing ones, in order, without error. -/
theorem c9_candidate_construction_total_on_present_rows
    (platform : String) (ex : String → Bool)
    (rows : List (Option BackMappingRow))
    (h : ∀ r, some r ∈ rows → (rowGet platform r).isSome) :
    current_os_pcs platform (none :: rows) = current_os_pcs platform rows ∧
    filterExisting ex (current_os_pcs platform rows)
      = .ok (((current_os_pcs platform rows).filterMap id).filter
          (fun p => ex p)) := by
  refine ⟨rfl, ?_⟩
  apply filterExisting_all_some
  intro x hx
  rw [current_os_pcs, List.mem_filterMap] at hx
  obtain ⟨orow, hmem, hfa⟩ := hx
  cases orow with
  | none => simp at hfa
  | some r =>
    simp only [Option.map_some'] at hfa
    rw [← Option.some.inj hfa]
    exact h r hmem

/-- **C9 witness**: with both rows carrying linux paths the candidate
construction succeeds and keeps exactly the on-disk paths. -/
theorem c9_candidate_construction_total_witness :
    filterExisting fsExists (current_os_pcs "linux2" [some rowA, some rowB])
      = .ok ["/cfg/A", "/cfg/B"] := by
  have h := c9_candidate_construction_total_on_present_rows "linux2"
    fsExists [some rowA, some rowB]
    (by intro r hr; simp at hr; rcases hr with h | h <;> subst h <;> decide)
  rw [h.2]
  decide

/-! ## C10 — data roots -/

/-- **C10**: `get_data_roots` returns the mapping keyed by storage name
whose value for each storage with a current-OS path is that path (slashes
converted to the OS separator) joined with the project name; and the
spec scenario — roots.yml `primary: {mac_path: /studio/, linux_path:
/studio, windows_path: null}` with project `demo` on linux — yields
`primary ↦ /studio/demo`. -/
theorem c10_get_data_roots_joins_project
    (platform : String) (roots : List (String × StorageRootEntry))
    (project_name : String) (key : String)
    (hkey : platform_lookup_key platform = .ok key) :
    get_data_roots platform roots project_name
      = .ok (roots.map (fun p => (p.1,
          (storageField key p.2).map (fun root =>
            osJoin platform
              (pyReplaceChar '/' (osSepChar platform)
                (pyReplaceChar '\\' (osSepChar platform) root))
              project_name)))) ∧
    (load_roots_metadata
        [("primary", ⟨some "/studio/", some "/studio", none⟩)]).bind
      (fun rts => get_data_roots "linux2" rts "demo")
      = .ok [("primary", some "/studio/demo")] := by
  constructor
  · induction roots with
    | nil => rfl
    | cons p rest ih =>
      have hentry : data_root_entry platform project_name p.2
          = .ok ((storageField key p.2).map (fun root =>
              osJoin platform
                (pyReplaceChar '/' (osSepChar platform)
                  (pyReplaceChar '\\' (osSepChar platform) root))
                project_name)) := by
        unfold data_root_entry
        rw [hkey]
        cases hsf : storageField key p.2 <;> simp [hsf]
      simp [get_data_roots, hentry, ih]
  · decide

/-- **C10 witness**: the general clause applied to the scenario's loaded
roots (`/studio/` already normalized to `/studio` by the loader). -/
theorem c10_get_data_roots_joins_project_witness :
    get_data_roots "linux2"
        [("primary", ⟨some "/studio", some "/studio", none⟩)] "demo"
      = .ok [("primary", some "/studio/demo")] := by
  have h := c10_get_data_roots_joins_project "linux2"
    [("primary", ⟨some "/studio", some "/studio", none⟩)] "demo"
    "linux_path" rfl
  rw [h.1]
  decide

end PipelineConfig
